import Mathlib

/-!
Verification of the PowerShell execution gateway and template engine
(`src/server.py` of the PowerShell-Exec-MCP-Server repository).

The Python source is shallowly embedded:

* `validate_powershell_code` and its deny-list of regular expressions are
  embedded with a small Brzozowski-derivative regex matcher mirroring
  `re.search(pattern, code, re.IGNORECASE)`.
* `execute_powershell` becomes a pure function over an explicit
  `ProcBehavior` value describing what the spawned process would do
  (time out with some partial output, exit with a code and captured
  stdout/stderr, or fail to spawn); the result records the outcome, whether
  a process was spawned and whether it was killed.
* The template engine (`generate_script_from_template`, `ensure_directory`,
  the Intune wrappers and `generate_intune_script_pair`) is embedded over an
  explicit file-system state `FS` (existing directories, file contents, and
  a log of performed writes); Python's in-place mutation of the caller's
  `parameters` dict is modelled by returning the post-call mapping.
* Python `str.replace` (replace all non-overlapping occurrences, scanning
  left to right) is embedded as `replaceAllL` / `strReplace`, and
  `os.path` helpers (`join`, `dirname`, `splitext` non-emptiness, `isabs`,
  `abspath` on already-normalized input) are embedded over `/`-separated
  path strings as POSIX `os.path` computes them.
-/

/-! ## Regex matcher for the deny-list (`re.search` with `re.IGNORECASE`) -/

inductive Regex where
  | fail : Regex
  | eps : Regex
  | cls (p : Char → Bool) : Regex
  | seq (a b : Regex) : Regex
  | alt (a b : Regex) : Regex
  | star (a : Regex) : Regex

def Regex.nullable : Regex → Bool
  | .fail => false
  | .eps => true
  | .cls _ => false
  | .seq a b => a.nullable && b.nullable
  | .alt a b => a.nullable || b.nullable
  | .star _ => true

def Regex.deriv : Regex → Char → Regex
  | .fail, _ => .fail
  | .eps, _ => .fail
  | .cls p, c => if p c then .eps else .fail
  | .seq a b, c =>
      if a.nullable then .alt (.seq (a.deriv c) b) (b.deriv c)
      else .seq (a.deriv c) b
  | .alt a b, c => .alt (a.deriv c) (b.deriv c)
  | .star a, c => .seq (a.deriv c) (.star a)

/-- Does some prefix of the input match the regex? -/
def matchHere : Regex → List Char → Bool
  | r, [] => r.nullable
  | r, c :: rest => r.nullable || matchHere (r.deriv c) rest

/-- `re.search`: does the regex match starting at any position of the input? -/
def searchAnywhere (r : Regex) (s : List Char) : Bool :=
  s.tails.any (fun t => matchHere r t)

/-- A literal character under `re.IGNORECASE`. -/
def Regex.chr (c : Char) : Regex :=
  .cls (fun d => d.toLower == c.toLower)

/-- A literal string under `re.IGNORECASE`. -/
def Regex.lit (s : String) : Regex :=
  s.data.foldr (fun c acc => .seq (.chr c) acc) .eps

/-- Python `\s` (ASCII whitespace). -/
def Regex.wsp : Regex :=
  .cls (fun c => c == ' ' || c == '\t' || c == '\n' || c == '\r' || c == '\x0b' || c == '\x0c')

def Regex.plus (r : Regex) : Regex := .seq r (.star r)

/-- Python `.` (any character except a newline). -/
def Regex.dot : Regex := .cls (fun c => !(c == '\n'))

/-- `[a-z]` under `re.IGNORECASE`. -/
def Regex.asciiLetter : Regex :=
  .cls (fun c => decide ('a' ≤ c.toLower) && decide (c.toLower ≤ 'z'))

/-- The deny-list of `validate_powershell_code` (`src/server.py`, lines 56-68),
one `Regex` per Python pattern, in source order. -/
def dangerous_patterns : List Regex :=
  [ .seq (.lit "rm") (.seq (.plus .wsp)
      (.seq (.star (.alt (.lit "-r") (.alt (.lit "-f") (.lit "/s"))))
        (.seq (.star .wsp) (.chr '/')))),
    .seq (.lit "format") (.seq (.plus .wsp) (.seq .asciiLetter (.chr ':'))),
    .lit "Stop-Computer",
    .lit "Restart-Computer",
    .seq (.lit "Remove-Item") (.seq (.star .dot) (.lit "-Recurse")),
    .lit "Invoke-Expression",
    .lit "iex",
    .lit "Start-Process",
    .lit "New-Service",
    .lit "Set-Service",
    .seq (.lit "net") (.seq (.plus .wsp) (.lit "user")) ]

/-- Does some deny-list pattern match anywhere in the code (case-insensitively)? -/
def dangerousMatch (code : String) : Bool :=
  dangerous_patterns.any (fun r => searchAnywhere r code.data)

/-- `validate_powershell_code` (`src/server.py`, lines 46-70):
`True` iff no dangerous pattern matches. -/
def validate_powershell_code (code : String) : Bool :=
  ! dangerousMatch code

/-! ## The execution gateway (`execute_powershell`, `src/server.py`, lines 586-645) -/

/-- The `timeout` argument as received: a Python `int`, or a value of any
other type (`None`, `str`, ...), which `isinstance(timeout, int)` rejects. -/
inductive TimeoutArg where
  | int (n : Int) : TimeoutArg
  | nonInt : TimeoutArg
deriving DecidableEq

/-- What the spawned PowerShell process would do, were it spawned:
fail to launch, still be running when the deadline elapses (having already
produced `partialOut`), or exit with a code and captured stdout/stderr. -/
inductive ProcBehavior where
  | spawnFail (msg : String) : ProcBehavior
  | timedOut (partialOut : String) : ProcBehavior
  | exited (exitCode : Int) (stdout stderr : String) : ProcBehavior
deriving DecidableEq

inductive ExecError where
  | paramError (msg : String) : ExecError
  | validationError (msg : String) : ExecError
  | timeoutError (msg : String) : ExecError
  | processError (msg : String) : ExecError
  | spawnError (msg : String) : ExecError
deriving DecidableEq

/-- Result of one gateway invocation: the value returned or error raised,
whether an external interpreter process was spawned, and whether the process
was forcibly killed. -/
structure ExecResult where
  outcome : Except ExecError String
  spawned : Bool
  killed : Bool

/-- The timeout gate of `execute_powershell`
(`not isinstance(timeout, int) or timeout < 1 or timeout > 300`). -/
def timeoutRejected : TimeoutArg → Bool
  | .int n => decide (n < 1) || decide (n > 300)
  | .nonInt => true

def timeoutText : TimeoutArg → String
  | .int n => toString n
  | .nonInt => ""

/-- `execute_powershell` (`src/server.py`, lines 586-645): timeout gate, then
deny-list validation, then the supervised process run.  The branches mirror
the Python control flow: `ValueError` on the timeout range, `ValueError` on
validation failure, `TimeoutError` with `process.kill()` on deadline expiry
(discarding all captured output), `RuntimeError` carrying stderr (or a
sentinel if stderr was empty) on a non-zero exit code, and the decoded
stdout on success. -/
def execute_powershell (code : String) (timeout : TimeoutArg) (pb : ProcBehavior) : ExecResult :=
  if timeoutRejected timeout then
    ⟨.error (.paramError "timeout must be between 1 and 300 seconds"), false, false⟩
  else if validate_powershell_code code then
    match pb with
    | .spawnFail m => ⟨.error (.spawnError m), false, false⟩
    | .timedOut _ =>
        ⟨.error (.timeoutError ("Command timed out after " ++ timeoutText timeout ++ " seconds")),
         true, true⟩
    | .exited ec out err =>
        if ec = 0 then ⟨.ok out, true, false⟩
        else
          ⟨.error (.processError (if err = "" then "Command failed with no error output" else err)),
           true, false⟩
  else
    ⟨.error (.validationError "PowerShell code contains potentially dangerous commands"),
     false, false⟩

theorem sanity_validate_stop : validate_powershell_code "Stop-Computer" = false := by decide

theorem sanity_validate_echo : validate_powershell_code "Write-Output hi" = true := by decide

/-! ## Python `str.replace` (replace all non-overlapping occurrences) -/

/-- Python `str.replace` on character lists, with a fuel argument so the
recursion is structural (each step consumes at least one character, so
`s.length + 1` fuel always suffices).  An empty pattern is left untouched
(unreachable here: every placeholder marker is non-empty). -/
def replaceAllFuel : Nat → List Char → List Char → List Char → List Char
  | 0, _, _, _ => []
  | _ + 1, _, _, [] => []
  | n + 1, pat, rep, c :: rest =>
    if pat ≠ [] ∧ pat.isPrefixOf (c :: rest) then
      rep ++ replaceAllFuel n pat rep (List.drop (pat.length - 1) rest)
    else
      c :: replaceAllFuel n pat rep rest

def replaceAllL (pat rep s : List Char) : List Char :=
  replaceAllFuel (s.length + 1) pat rep s

/-- `s.replace(pat, rep)` of Python, on strings. -/
def strReplace (s pat rep : String) : String :=
  ⟨replaceAllL pat.data rep.data s.data⟩

/-- Python `s.split(pat)`, same scanning discipline as `replaceAllFuel`. -/
def splitOnFuel : Nat → List Char → List Char → List (List Char)
  | 0, _, _ => [[]]
  | _ + 1, _, [] => [[]]
  | n + 1, pat, c :: rest =>
    if pat ≠ [] ∧ pat.isPrefixOf (c :: rest) then
      [] :: splitOnFuel n pat (List.drop (pat.length - 1) rest)
    else
      match splitOnFuel n pat rest with
      | [] => [[c]]
      | h :: t => (c :: h) :: t

def splitOnL (pat s : List Char) : List (List Char) :=
  splitOnFuel (s.length + 1) pat s

/-- Join a list of pieces with a separator (the semantics of
Python `sep.join(pieces)`). -/
def joinWith (sep : List Char) : List (List Char) → List Char
  | [] => []
  | [x] => x
  | x :: y :: zs => x ++ sep ++ joinWith sep (y :: zs)

/-- Is `pat` a contiguous substring of `s`? -/
def containsSub (pat s : List Char) : Bool :=
  s.tails.any (fun t => pat.isPrefixOf t)

/-! ## The template substitution engine
(`generate_script_from_template`, `src/server.py`, lines 159-195) -/

/-- Python dict assignment `d[k] = v` on an insertion-ordered association
list: update the existing entry in place, or append a new one. -/
def setKey : List (String × String) → String → String → List (String × String)
  | [], k, v => [(k, v)]
  | (k', v') :: rest, k, v =>
    if k' = k then (k, v) :: rest else (k', v') :: setKey rest k v

/-- The placeholder marker built from a key: two braces, the key, two braces
(the Python f-string produces that literal). -/
def marker (k : String) : String := "\x7b\x7b" ++ k ++ "\x7d\x7d"

/-- The substitution loop: for each key/value pair in mapping order,
replace every occurrence of its marker. -/
def renderContent (tmpl : String) (params : List (String × String)) : String :=
  params.foldl (fun acc kv => strReplace acc (marker kv.1) kv.2) tmpl

/-- The substitution set actually used: the caller's mapping after
`parameters['DATE'] = datetime.now().strftime('%Y-%m-%d')`. -/
def substParams (params : List (String × String)) (today : String) : List (String × String) :=
  setKey params "DATE" today

/-! ## POSIX `os.path` helpers and the file-system state -/

def isabs (s : String) : Bool :=
  match s.data with
  | [] => false
  | c :: _ => c == '/'

def endsSlash (s : String) : Bool :=
  match s.data.getLast? with
  | some c => c == '/'
  | none => false

/-- The `path.startswith(('./', '.\\'))` test of `normalize_path`. -/
def startsDotSlash (s : String) : Bool :=
  match s.data with
  | c1 :: c2 :: _ => c1 == '.' && (c2 == '/' || c2 == '\\')
  | _ => false

def dirnameL (s : List Char) : List Char :=
  match s.reverse.dropWhile (fun c => !(c == '/')) with
  | [] => []
  | _ :: rest => if rest = [] then ['/'] else rest.reverse

/-- `os.path.dirname`. -/
def dirname (s : String) : String := ⟨dirnameL s.data⟩

def basenameL (s : List Char) : List Char :=
  (s.reverse.takeWhile (fun c => !(c == '/'))).reverse

/-- `os.path.basename`. -/
def basename (s : String) : String := ⟨basenameL s.data⟩

/-- Scans the basename for a dot having some earlier non-dot character —
exactly when `os.path.splitext(...)[1]` is non-empty (leading dots of the
basename never start an extension). -/
def hasExtAux : Bool → List Char → Bool
  | _, [] => false
  | seen, c :: rest =>
    if c = '.' then (seen || hasExtAux seen rest) else hasExtAux true rest

/-- Truthiness of `os.path.splitext(s)[1]`. -/
def hasExt (s : String) : Bool := hasExtAux false (basenameL s.data)

/-- `os.path.join(a, b)` (POSIX). -/
def joinPath (a b : String) : String :=
  if isabs b then b
  else if a = "" then b
  else if endsSlash a then a ++ b
  else a ++ "/" ++ b

/-- `normalize_path` (`src/server.py`, lines 306-314) on already-normalized
input: strip a leading `./` or `.\`, then resolve against the current
working directory when relative. -/
def normalize_path (cwd path : String) : String :=
  if startsDotSlash path then
    if isabs ⟨path.data.drop 2⟩ then ⟨path.data.drop 2⟩
    else joinPath cwd ⟨path.data.drop 2⟩
  else if isabs path then path
  else joinPath cwd path

/-- File-system state: existing directories, file contents, and a log of the
writes performed (in order). -/
structure FS where
  dirs : List String
  files : List (String × String)
  writes : List (String × String)
deriving DecidableEq

/-- The directory chain created by `os.makedirs(d, exist_ok=True)`:
`d` and all its ancestors (fuel: a proper ancestor is always shorter). -/
def ancestorsAux : Nat → List Char → List String
  | 0, _ => []
  | n + 1, d =>
    ⟨d⟩ :: (if dirnameL d = d then [] else ancestorsAux n (dirnameL d))

def ancestors (d : String) : List String :=
  ancestorsAux (d.data.length + 1) d.data

/-- `os.makedirs(d, exist_ok=True)`. -/
def makedirsFS (fs : FS) (d : String) : FS :=
  { fs with dirs := ancestors d ++ fs.dirs }

/-- `open(path, 'w').write(content)`: succeeds only when the containing
directory exists (the root always does), recording the write. -/
def writeFileFS (fs : FS) (path content : String) : Option FS :=
  if dirname path = "/" ∨ dirname path ∈ fs.dirs then
    some { dirs := fs.dirs,
           files := setKey fs.files path content,
           writes := fs.writes ++ [(path, content)] }
  else none

inductive GenError where
  | notFound (name : String) : GenError
  | emptyPath : GenError
  | ioError (path : String) : GenError
deriving DecidableEq

/-- Outcome of one template-engine call: the returned value or raised error,
the caller's `parameters` mapping as left by the call (Python mutates the
caller's dict in place), and the file-system state afterwards. -/
structure GenOutcome where
  result : Except GenError String
  paramsAfter : List (String × String)
  fs : FS

/-- `generate_script_from_template` (`src/server.py`, lines 159-195):
look the template up in the catalog (`ValueError` if absent), store the
auto-generated date into the caller's mapping, substitute every marker,
then either return the content or write it to `output_path` and return a
message naming that path. -/
def generate_script_from_template (catalog : List (String × String)) (fs : FS)
    (tname : String) (params : List (String × String))
    (outputPath : Option String) (today : String) : GenOutcome :=
  match List.lookup tname catalog with
  | none => ⟨.error (.notFound tname), params, fs⟩
  | some tmpl =>
    let params2 := substParams params today
    let content := renderContent tmpl params2
    match outputPath with
    | none => ⟨.ok content, params2, fs⟩
    | some path =>
      match writeFileFS fs path content with
      | none => ⟨.error (.ioError path), params2, fs⟩
      | some fs2 => ⟨.ok ("Script generated and saved to: " ++ path), params2, fs2⟩

/-- `ensure_directory` (`src/server.py`, lines 316-325): normalize the path;
if it carries an extension create its parent directory, otherwise create the
path itself; return the absolute path. -/
def ensure_directory (cwd : String) (fs : FS) (path : String) :
    Except GenError (String × FS) :=
  if path = "" then .error .emptyPath
  else
    let abs := normalize_path cwd path
    let dir := if hasExt abs then dirname abs else abs
    .ok (abs, makedirsFS fs dir)

/-! ## The Intune wrappers (`src/server.py`, lines 327-584) -/

def detectionParams (description detection_logic today : String) :
    List (String × String) :=
  [("SYNOPSIS", "Intune Detection Script - " ++ description),
   ("DESCRIPTION", description),
   ("DATE", today),
   ("DETECTION_LOGIC", detection_logic)]

def remediationParams (description remediation_logic today : String) :
    List (String × String) :=
  [("SYNOPSIS", "Intune Remediation Script - " ++ description),
   ("DESCRIPTION", description),
   ("DATE", today),
   ("REMEDIATION_LOGIC", remediation_logic)]

/-- `generate_intune_detection_script` (`src/server.py`, lines 327-397). -/
def generate_intune_detection_script (catalog : List (String × String))
    (cwd : String) (fs : FS) (description detection_logic : String)
    (output_path : Option String) (today : String) : GenOutcome :=
  let params := detectionParams description detection_logic today
  match output_path with
  | none => generate_script_from_template catalog fs "intune_detection" params none today
  | some p =>
    match ensure_directory cwd fs p with
    | .error e => ⟨.error e, params, fs⟩
    | .ok (abs, fs') =>
        generate_script_from_template catalog fs' "intune_detection" params (some abs) today

/-- `generate_intune_remediation_script` (`src/server.py`, lines 399-465). -/
def generate_intune_remediation_script (catalog : List (String × String))
    (cwd : String) (fs : FS) (description remediation_logic : String)
    (output_path : Option String) (today : String) : GenOutcome :=
  let params := remediationParams description remediation_logic today
  match output_path with
  | none => generate_script_from_template catalog fs "intune_remediation" params none today
  | some p =>
    match ensure_directory cwd fs p with
    | .error e => ⟨.error e, params, fs⟩
    | .ok (abs, fs') =>
        generate_script_from_template catalog fs' "intune_remediation" params (some abs) today

structure PairOutcome where
  result : Except GenError (String × String)
  fs : FS

/-- `generate_intune_script_pair` (`src/server.py`, lines 467-584): with an
output directory, resolve it with `ensure_directory`, derive the two fixed
file names `detect.ps1` and `remedy.ps1` inside it, `os.makedirs` the
directory again, then generate both scripts; without one, generate both
contents in memory.  Python exceptions are propagated as errors. -/
def generate_intune_script_pair (catalog : List (String × String)) (cwd : String)
    (fs : FS) (description detection_logic remediation_logic : String)
    (output_dir : Option String) (today : String) : PairOutcome :=
  match output_dir with
  | some d =>
    match ensure_directory cwd fs d with
    | .error e => ⟨.error e, fs⟩
    | .ok (absDir, fs1) =>
      let detectPath := joinPath absDir "detect.ps1"
      let remedyPath := joinPath absDir "remedy.ps1"
      let fs2 := makedirsFS fs1 absDir
      let g1 := generate_intune_detection_script catalog cwd fs2 description
                  detection_logic (some detectPath) today
      match g1.result with
      | .error e => ⟨.error e, g1.fs⟩
      | .ok msgD =>
        let g2 := generate_intune_remediation_script catalog cwd g1.fs description
                    remediation_logic (some remedyPath) today
        match g2.result with
        | .error e => ⟨.error e, g2.fs⟩
        | .ok msgR => ⟨.ok (msgD, msgR), g2.fs⟩
  | none =>
    let g1 := generate_intune_detection_script catalog cwd fs description
                detection_logic none today
    match g1.result with
    | .error e => ⟨.error e, g1.fs⟩
    | .ok msgD =>
      let g2 := generate_intune_remediation_script catalog cwd g1.fs description
                  remediation_logic none today
      match g2.result with
      | .error e => ⟨.error e, g2.fs⟩
      | .ok msgR => ⟨.ok (msgD, msgR), g2.fs⟩

/-! ## Helper lemmas -/

theorem str_data_append (a b : String) : (a ++ b).data = a.data ++ b.data := by
  cases a; cases b; rfl

theorem str_mk_data (s : String) : (⟨s.data⟩ : String) = s := by
  cases s; rfl

theorem str_data_inj {a b : String} (h : a.data = b.data) : a = b := by
  cases a; cases b; exact congrArg String.mk h

theorem lookup_setKey_self (p : List (String × String)) (k v : String) :
    List.lookup k (setKey p k v) = some v := by
  induction p with
  | nil => simp [setKey, List.lookup]
  | cons hd tl ih =>
    obtain ⟨k', v'⟩ := hd
    by_cases h : k' = k
    · simp [setKey, h, List.lookup]
    · simp only [setKey, if_neg h, List.lookup]
      have hb : (k == k') = false := by
        simp only [beq_eq_false_iff_ne, ne_eq]
        exact fun he => h he.symm
      simp [hb, ih]

theorem lookup_setKey_ne (p : List (String × String)) (k k' v : String)
    (h : k' ≠ k) : List.lookup k' (setKey p k v) = List.lookup k' p := by
  induction p with
  | nil =>
    have hb : (k' == k) = false := by simpa using h
    simp [setKey, List.lookup, hb]
  | cons hd tl ih =>
    obtain ⟨k1, v1⟩ := hd
    by_cases h1 : k1 = k
    · subst h1
      have hb : (k' == k1) = false := by simpa using h
      simp [setKey, List.lookup, hb]
    · simp [setKey, if_neg h1, List.lookup, ih]

theorem setKey_setKey (p : List (String × String)) (k v w : String) :
    setKey (setKey p k v) k w = setKey p k w := by
  induction p with
  | nil => simp [setKey]
  | cons hd tl ih =>
    obtain ⟨k', v'⟩ := hd
    by_cases h : k' = k
    · simp [setKey, h]
    · simp [setKey, if_neg h, ih]

theorem splitOnFuel_ne_nil (n : Nat) (pat s : List Char) :
    splitOnFuel n pat s ≠ [] := by
  match n, s with
  | 0, _ => simp [splitOnFuel]
  | _ + 1, [] => simp [splitOnFuel]
  | m + 1, c :: rest =>
    by_cases h : pat ≠ [] ∧ pat.isPrefixOf (c :: rest)
    · simp [splitOnFuel, h]
    · simp only [splitOnFuel, if_neg h]
      cases splitOnFuel m pat rest <;> simp

theorem joinWith_cons₂ (sep x y : List Char) (zs : List (List Char)) :
    joinWith sep (x :: y :: zs) = x ++ sep ++ joinWith sep (y :: zs) := rfl

theorem replaceAllFuel_eq_joinWith (pat rep : List Char) :
    ∀ (n : Nat) (s : List Char), s.length < n →
      replaceAllFuel n pat rep s = joinWith rep (splitOnFuel n pat s) := by
  intro n
  induction n with
  | zero => intro s h; exact absurd h (Nat.not_lt_zero _)
  | succ m ih =>
    intro s h
    match s with
    | [] => simp [replaceAllFuel, splitOnFuel, joinWith]
    | c :: rest =>
      have hrest : rest.length < m := by
        simpa [Nat.succ_lt_succ_iff] using h
      by_cases hc : pat ≠ [] ∧ pat.isPrefixOf (c :: rest)
      · have hdrop : (List.drop (pat.length - 1) rest).length < m := by
          have := List.length_drop (pat.length - 1) rest
          omega
        simp only [replaceAllFuel, splitOnFuel, if_pos hc]
        rw [ih _ hdrop]
        obtain ⟨hd, tl, hL⟩ :
            ∃ hd tl, splitOnFuel m pat (List.drop (pat.length - 1) rest) = hd :: tl := by
          cases hE : splitOnFuel m pat (List.drop (pat.length - 1) rest) with
          | nil => exact absurd hE (splitOnFuel_ne_nil _ _ _)
          | cons hd tl => exact ⟨hd, tl, rfl⟩
        rw [hL, joinWith_cons₂]
        simp
      · simp only [replaceAllFuel, splitOnFuel, if_neg hc]
        rw [ih _ hrest]
        cases hE : splitOnFuel m pat rest with
        | nil => exact absurd hE (splitOnFuel_ne_nil _ _ _)
        | cons hd tl =>
          cases tl with
          | nil => simp [joinWith]
          | cons y ys => simp [joinWith_cons₂]

theorem replaceAllL_eq_joinWith (pat rep s : List Char) :
    replaceAllL pat rep s = joinWith rep (splitOnL pat s) :=
  replaceAllFuel_eq_joinWith pat rep (s.length + 1) s (Nat.lt_succ_self _)

theorem dropWhile_append_all (p : Char → Bool) (xs ys : List Char)
    (h : ∀ x ∈ xs, p x = true) :
    List.dropWhile p (xs ++ ys) = List.dropWhile p ys := by
  induction xs with
  | nil => rfl
  | cons a as ih =>
    have ha : p a = true := h a (by simp)
    simp only [List.cons_append, List.dropWhile_cons, ha, if_true]
    exact ih (fun x hx => h x (by simp [hx]))

theorem takeWhile_append_stop (p : Char → Bool) (xs : List Char) (y : Char)
    (ys : List Char) (h : ∀ x ∈ xs, p x = true) (hy : p y = false) :
    List.takeWhile p (xs ++ y :: ys) = xs := by
  induction xs with
  | nil => simp [List.takeWhile_cons, hy]
  | cons a as ih =>
    have ha : p a = true := h a (by simp)
    simp only [List.cons_append, List.takeWhile_cons, ha, if_true]
    rw [ih (fun x hx => h x (by simp [hx]))]

theorem isabs_head {a : String} (h : isabs a = true) : ∃ as, a.data = '/' :: as := by
  cases hd : a.data with
  | nil => simp [isabs, hd] at h
  | cons c cs =>
    refine ⟨cs, ?_⟩
    have hb : (c == '/') = true := by simpa [isabs, hd] using h
    have hc : c = '/' := by simpa using hb
    rw [hc]

theorem data_ne_nil_of_isabs {a : String} (h : isabs a = true) : a.data ≠ [] := by
  obtain ⟨as, hd⟩ := isabs_head h
  simp [hd]

theorem ne_empty_of_isabs {a : String} (h : isabs a = true) : a ≠ "" := by
  intro he
  exact data_ne_nil_of_isabs h (by rw [he])

theorem isabs_append {a : String} (b : String) (h : isabs a = true) :
    isabs (a ++ b) = true := by
  obtain ⟨as, hd⟩ := isabs_head h
  have hdd : (a ++ b).data = '/' :: (as ++ b.data) := by
    rw [str_data_append, hd]; rfl
  simp [isabs, hdd]

theorem startsDotSlash_of_isabs {a : String} (h : isabs a = true) :
    startsDotSlash a = false := by
  obtain ⟨as, hd⟩ := isabs_head h
  cases as with
  | nil => simp [startsDotSlash, hd]
  | cons c2 rest =>
    have hq : ('/' == '.') = false := by decide
    simp [startsDotSlash, hd, hq]

theorem isabs_joinPath {cwd : String} (p : String) (h : isabs cwd = true) :
    isabs (joinPath cwd p) = true := by
  unfold joinPath
  by_cases h1 : isabs p = true
  · rw [if_pos h1]; exact h1
  · have h2 : cwd ≠ "" := ne_empty_of_isabs h
    rw [if_neg h1, if_neg h2]
    by_cases h3 : endsSlash cwd = true
    · rw [if_pos h3]; exact isabs_append _ h
    · rw [if_neg h3]; exact isabs_append _ (isabs_append _ h)

theorem isabs_normalize_path {cwd : String} (d : String) (h : isabs cwd = true) :
    isabs (normalize_path cwd d) = true := by
  unfold normalize_path
  by_cases h1 : startsDotSlash d = true
  · rw [if_pos h1]
    by_cases h2 : isabs (⟨d.data.drop 2⟩ : String) = true
    · rw [if_pos h2]; exact h2
    · rw [if_neg h2]; exact isabs_joinPath _ h
  · rw [if_neg h1]
    by_cases h2 : isabs d = true
    · rw [if_pos h2]; exact h2
    · rw [if_neg h2]; exact isabs_joinPath _ h

theorem append_slash_data (a b : String) :
    (a ++ "/" ++ b).data = a.data ++ '/' :: b.data := by
  rw [str_data_append, str_data_append]
  simp

theorem dirnameL_append (al bl : List Char) (ha : al ≠ []) (hb : '/' ∉ bl) :
    dirnameL (al ++ '/' :: bl) = al := by
  unfold dirnameL
  rw [List.reverse_append, List.reverse_cons, List.append_assoc, List.singleton_append]
  rw [dropWhile_append_all _ _ _ (fun x hx => by
    have hxb : x ∈ bl := List.mem_reverse.mp hx
    have : (x == '/') = false := by
      simp only [beq_eq_false_iff_ne, ne_eq]
      intro he; exact hb (he ▸ hxb)
    simp [this])]
  have hs : (!('/' == '/')) = false := by decide
  rw [List.dropWhile_cons, hs]
  simp only [if_false, Bool.false_eq_true]
  have hrev : al.reverse ≠ [] := by simpa using ha
  rw [if_neg hrev, List.reverse_reverse]

theorem basenameL_append (al bl : List Char) (hb : '/' ∉ bl) :
    basenameL (al ++ '/' :: bl) = bl := by
  unfold basenameL
  rw [List.reverse_append, List.reverse_cons, List.append_assoc, List.singleton_append]
  rw [takeWhile_append_stop _ _ _ _ (fun x hx => by
    have hxb : x ∈ bl := List.mem_reverse.mp hx
    have : (x == '/') = false := by
      simp only [beq_eq_false_iff_ne, ne_eq]
      intro he; exact hb (he ▸ hxb)
    simp [this]) (by decide)]
  exact List.reverse_reverse bl

theorem dirname_append_file (a b : String) (ha : a.data ≠ []) (hb : '/' ∉ b.data) :
    dirname (a ++ "/" ++ b) = a := by
  unfold dirname
  rw [append_slash_data, dirnameL_append _ _ ha hb, str_mk_data]

theorem basename_append_file (a b : String) (hb : '/' ∉ b.data) :
    basename (a ++ "/" ++ b) = b := by
  unfold basename
  rw [append_slash_data, basenameL_append _ _ hb, str_mk_data]

theorem mem_makedirs_self (fs : FS) (d : String) : d ∈ (makedirsFS fs d).dirs := by
  have h : ancestors d =
      (⟨d.data⟩ : String) ::
        (if dirnameL d.data = d.data then []
         else ancestorsAux d.data.length (dirnameL d.data)) := rfl
  simp [makedirsFS, h, str_mk_data]

theorem makedirs_files (fs : FS) (d : String) : (makedirsFS fs d).files = fs.files := rfl

theorem makedirs_writes (fs : FS) (d : String) : (makedirsFS fs d).writes = fs.writes := rfl

theorem gen_write_ok (catalog : List (String × String)) (fs : FS) (tname : String)
    (params : List (String × String)) (path today tmpl : String)
    (hl : List.lookup tname catalog = some tmpl)
    (hdir : dirname path = "/" ∨ dirname path ∈ fs.dirs) :
    generate_script_from_template catalog fs tname params (some path) today =
      ⟨.ok ("Script generated and saved to: " ++ path), substParams params today,
       ⟨fs.dirs,
        setKey fs.files path (renderContent tmpl (substParams params today)),
        fs.writes ++ [(path, renderContent tmpl (substParams params today))]⟩⟩ := by
  unfold generate_script_from_template writeFileFS
  rw [hl]
  simp only [eq_true hdir, if_true]

theorem gen_write_fail (catalog : List (String × String)) (fs : FS) (tname : String)
    (params : List (String × String)) (path today tmpl : String)
    (hl : List.lookup tname catalog = some tmpl)
    (hdir : ¬ (dirname path = "/" ∨ dirname path ∈ fs.dirs)) :
    generate_script_from_template catalog fs tname params (some path) today =
      ⟨.error (.ioError path), substParams params today, fs⟩ := by
  unfold generate_script_from_template writeFileFS
  rw [hl]
  simp only [eq_false hdir, if_false]

theorem joinPath_no_slash (a b : String) (ha : a ≠ "") (hsl : endsSlash a = false)
    (hb : isabs b = false) : joinPath a b = a ++ "/" ++ b := by
  unfold joinPath
  rw [if_neg (by rw [hb]; exact Bool.false_ne_true), if_neg ha,
    if_neg (by rw [hsl]; exact Bool.false_ne_true)]

theorem ensure_dir_file (cwd : String) (fs : FS) (a b : String)
    (ha : isabs a = true) (hb : '/' ∉ b.data) (hbe : hasExtAux false b.data = true) :
    ensure_directory cwd fs (a ++ "/" ++ b) = .ok (a ++ "/" ++ b, makedirsFS fs a) := by
  have hdata : (a ++ "/" ++ b).data = a.data ++ '/' :: b.data := append_slash_data a b
  have habs : isabs (a ++ "/" ++ b) = true := isabs_append _ (isabs_append _ ha)
  have hne : (a ++ "/" ++ b) ≠ "" := ne_empty_of_isabs habs
  have hdot : startsDotSlash (a ++ "/" ++ b) = false := startsDotSlash_of_isabs habs
  have hbase : basenameL (a ++ "/" ++ b).data = b.data := by
    rw [hdata]; exact basenameL_append _ _ hb
  have hext : hasExt (a ++ "/" ++ b) = true := by
    unfold hasExt; rw [hbase]; exact hbe
  have hdir : dirname (a ++ "/" ++ b) = a :=
    dirname_append_file a b (data_ne_nil_of_isabs ha) hb
  have hnorm : normalize_path cwd (a ++ "/" ++ b) = a ++ "/" ++ b := by
    unfold normalize_path
    rw [if_neg (by rw [hdot]; exact Bool.false_ne_true), if_pos habs]
  unfold ensure_directory
  rw [if_neg hne, hnorm]
  simp only [hext, if_true, hdir]

theorem detect_file_name : ('/' ∉ ("detect.ps1" : String).data) ∧
    hasExtAux false ("detect.ps1" : String).data = true := by decide

theorem remedy_file_name : ('/' ∉ ("remedy.ps1" : String).data) ∧
    hasExtAux false ("remedy.ps1" : String).data = true := by decide

theorem intune_detect_some (catalog : List (String × String)) (cwd : String)
    (fs : FS) (desc dl p today : String) :
    generate_intune_detection_script catalog cwd fs desc dl (some p) today =
      (match ensure_directory cwd fs p with
       | .error e => ⟨.error e, detectionParams desc dl today, fs⟩
       | .ok (abs, fs') =>
           generate_script_from_template catalog fs' "intune_detection"
             (detectionParams desc dl today) (some abs) today) := rfl

theorem intune_remedy_some (catalog : List (String × String)) (cwd : String)
    (fs : FS) (desc rl p today : String) :
    generate_intune_remediation_script catalog cwd fs desc rl (some p) today =
      (match ensure_directory cwd fs p with
       | .error e => ⟨.error e, remediationParams desc rl today, fs⟩
       | .ok (abs, fs') =>
           generate_script_from_template catalog fs' "intune_remediation"
             (remediationParams desc rl today) (some abs) today) := rfl

theorem intune_detect_ok (catalog : List (String × String)) (cwd : String) (fs : FS)
    (desc dl today a tmplD : String)
    (hl : List.lookup "intune_detection" catalog = some tmplD)
    (ha : isabs a = true) :
    generate_intune_detection_script catalog cwd fs desc dl
        (some (a ++ "/" ++ "detect.ps1")) today =
      ⟨.ok ("Script generated and saved to: " ++ (a ++ "/" ++ "detect.ps1")),
       substParams (detectionParams desc dl today) today,
       ⟨(makedirsFS fs a).dirs,
        setKey fs.files (a ++ "/" ++ "detect.ps1")
          (renderContent tmplD (substParams (detectionParams desc dl today) today)),
        fs.writes ++ [(a ++ "/" ++ "detect.ps1",
          renderContent tmplD (substParams (detectionParams desc dl today) today))]⟩⟩ := by
  have hb := detect_file_name
  have hens := ensure_dir_file cwd fs a "detect.ps1" ha hb.1 hb.2
  have hdir : dirname (a ++ "/" ++ "detect.ps1") = a :=
    dirname_append_file _ _ (data_ne_nil_of_isabs ha) hb.1
  have hmem : dirname (a ++ "/" ++ "detect.ps1") = "/" ∨
      dirname (a ++ "/" ++ "detect.ps1") ∈ (makedirsFS fs a).dirs :=
    Or.inr (by rw [hdir]; exact mem_makedirs_self fs a)
  have hgen := gen_write_ok catalog (makedirsFS fs a) "intune_detection"
    (detectionParams desc dl today) (a ++ "/" ++ "detect.ps1") today tmplD hl hmem
  rw [intune_detect_some, hens]
  exact hgen

theorem intune_remedy_ok (catalog : List (String × String)) (cwd : String) (fs : FS)
    (desc rl today a tmplR : String)
    (hl : List.lookup "intune_remediation" catalog = some tmplR)
    (ha : isabs a = true) :
    generate_intune_remediation_script catalog cwd fs desc rl
        (some (a ++ "/" ++ "remedy.ps1")) today =
      ⟨.ok ("Script generated and saved to: " ++ (a ++ "/" ++ "remedy.ps1")),
       substParams (remediationParams desc rl today) today,
       ⟨(makedirsFS fs a).dirs,
        setKey fs.files (a ++ "/" ++ "remedy.ps1")
          (renderContent tmplR (substParams (remediationParams desc rl today) today)),
        fs.writes ++ [(a ++ "/" ++ "remedy.ps1",
          renderContent tmplR (substParams (remediationParams desc rl today) today))]⟩⟩ := by
  have hb := remedy_file_name
  have hens := ensure_dir_file cwd fs a "remedy.ps1" ha hb.1 hb.2
  have hdir : dirname (a ++ "/" ++ "remedy.ps1") = a :=
    dirname_append_file _ _ (data_ne_nil_of_isabs ha) hb.1
  have hmem : dirname (a ++ "/" ++ "remedy.ps1") = "/" ∨
      dirname (a ++ "/" ++ "remedy.ps1") ∈ (makedirsFS fs a).dirs :=
    Or.inr (by rw [hdir]; exact mem_makedirs_self fs a)
  have hgen := gen_write_ok catalog (makedirsFS fs a) "intune_remediation"
    (remediationParams desc rl today) (a ++ "/" ++ "remedy.ps1") today tmplR hl hmem
  rw [intune_remedy_some, hens]
  exact hgen

theorem pair_some (catalog : List (String × String)) (cwd : String) (fs : FS)
    (desc dl rl d today : String) :
    generate_intune_script_pair catalog cwd fs desc dl rl (some d) today =
      (match ensure_directory cwd fs d with
       | .error e => ⟨.error e, fs⟩
       | .ok (absDir, fs1) =>
         let detectPath := joinPath absDir "detect.ps1"
         let remedyPath := joinPath absDir "remedy.ps1"
         let fs2 := makedirsFS fs1 absDir
         let g1 := generate_intune_detection_script catalog cwd fs2 desc dl
                     (some detectPath) today
         match g1.result with
         | .error e => ⟨.error e, g1.fs⟩
         | .ok msgD =>
           let g2 := generate_intune_remediation_script catalog cwd g1.fs desc rl
                       (some remedyPath) today
           match g2.result with
           | .error e => ⟨.error e, g2.fs⟩
           | .ok msgR => ⟨.ok (msgD, msgR), g2.fs⟩) := rfl

theorem pair_ok_branch (catalog : List (String × String)) (cwd : String) (fs : FS)
    (desc dl rl d today A : String) (F1 : FS)
    (hens : ensure_directory cwd fs d = .ok (A, F1)) :
    generate_intune_script_pair catalog cwd fs desc dl rl (some d) today =
      (let detectPath := joinPath A "detect.ps1"
       let remedyPath := joinPath A "remedy.ps1"
       let fs2 := makedirsFS F1 A
       let g1 := generate_intune_detection_script catalog cwd fs2 desc dl
                   (some detectPath) today
       match g1.result with
       | .error e => ⟨.error e, g1.fs⟩
       | .ok msgD =>
         let g2 := generate_intune_remediation_script catalog cwd g1.fs desc rl
                     (some remedyPath) today
         match g2.result with
         | .error e => ⟨.error e, g2.fs⟩
         | .ok msgR => ⟨.ok (msgD, msgR), g2.fs⟩) := by
  rw [pair_some, hens]

theorem ensure_dir_eval (cwd : String) (fs : FS) (d : String) (hd : d ≠ "") :
    ensure_directory cwd fs d =
      .ok (normalize_path cwd d,
        makedirsFS fs
          (if hasExt (normalize_path cwd d) then dirname (normalize_path cwd d)
           else normalize_path cwd d)) := by
  unfold ensure_directory
  rw [if_neg hd]

theorem append_file_ne (a b c : String) (h : b.data ≠ c.data) :
    a ++ "/" ++ b ≠ a ++ "/" ++ c := by
  intro he
  have hd := congrArg String.data he
  rw [append_slash_data, append_slash_data] at hd
  have h2 : '/' :: b.data = '/' :: c.data := List.append_cancel_left hd
  injection h2 with _ h3
  exact h h3

/-! ## Claim theorems -/

/-- C1: for every command text in which at least one deny-list pattern matches
case-insensitively anywhere (`dangerousMatch code = true`), `execute_powershell`
never spawns an external interpreter process; and whenever the timeout argument
passes its (earlier) gate, the invocation fails with the validation error. -/
theorem denylist_match_never_spawns (code : String) (t : TimeoutArg)
    (pb : ProcBehavior) (h : dangerousMatch code = true) :
    (execute_powershell code t pb).spawned = false ∧
      (timeoutRejected t = false →
        execute_powershell code t pb =
          ⟨.error (.validationError "PowerShell code contains potentially dangerous commands"),
           false, false⟩) := by
  have hv : validate_powershell_code code = false := by
    unfold validate_powershell_code; rw [h]; rfl
  unfold execute_powershell
  by_cases ht : timeoutRejected t = true
  · rw [if_pos ht]
    exact ⟨rfl, fun hf => absurd ht (by rw [hf]; exact Bool.false_ne_true)⟩
  · rw [if_neg ht, if_neg (by rw [hv]; exact Bool.false_ne_true)]
    exact ⟨rfl, fun _ => rfl⟩

/-- Witness for C1: the drive-format command is rejected, nothing is spawned. -/
theorem denylist_match_never_spawns_witness :
    dangerousMatch "format c:" = true ∧
      (execute_powershell "format c:" (.int 60) (.exited 0 "ok" "")).spawned = false ∧
      execute_powershell "format c:" (.int 60) (.exited 0 "ok" "") =
        ⟨.error (.validationError "PowerShell code contains potentially dangerous commands"),
         false, false⟩ := by
  have h := denylist_match_never_spawns "format c:" (.int 60) (.exited 0 "ok" "")
    (by decide)
  exact ⟨by decide, h.1, h.2 (by decide)⟩

/-- C2: the request passes the timeout gate iff the timeout is an integer with
1 ≤ t ≤ 300 (no invocation then raises the parameter error); any other value
yields the parameter error with nothing spawned and nothing validated,
independent of the command content. -/
theorem timeout_gate_iff (t : TimeoutArg) (code : String) (pb : ProcBehavior) :
    ((∃ n : Int, t = .int n ∧ 1 ≤ n ∧ n ≤ 300) ↔
      ∀ msg, (execute_powershell code t pb).outcome ≠ .error (.paramError msg)) ∧
    (timeoutRejected t = true →
      execute_powershell code t pb =
        ⟨.error (.paramError "timeout must be between 1 and 300 seconds"),
         false, false⟩) := by
  constructor
  · constructor
    · rintro ⟨n, rfl, h1, h2⟩ msg
      have ht : ¬ (timeoutRejected (.int n) = true) := by
        simp only [timeoutRejected, Bool.or_eq_true, decide_eq_true_eq]
        omega
      unfold execute_powershell
      rw [if_neg ht]
      by_cases hval : validate_powershell_code code = true
      · rw [if_pos hval]
        match pb with
        | .spawnFail m => simp
        | .timedOut p => simp
        | .exited ec o e =>
          by_cases hec : ec = 0
          · simp [hec]
          · simp [hec]
      · rw [if_neg hval]; simp
    · intro hall
      by_contra hne
      have ht : timeoutRejected t = true := by
        cases t with
        | int n =>
          have h' : ¬ (1 ≤ n ∧ n ≤ 300) := fun hc => hne ⟨n, rfl, hc.1, hc.2⟩
          simp only [timeoutRejected, Bool.or_eq_true, decide_eq_true_eq]
          omega
        | nonInt => rfl
      have hout : (execute_powershell code t pb).outcome =
          .error (.paramError "timeout must be between 1 and 300 seconds") := by
        unfold execute_powershell
        rw [if_pos ht]
      exact hall _ hout
  · intro ht
    unfold execute_powershell
    rw [if_pos ht]

/-- Witness for C2: timeout 400 is rejected with the parameter error. -/
theorem timeout_gate_iff_witness :
    timeoutRejected (.int 400) = true ∧
      execute_powershell "Get-Service" (.int 400) (.exited 0 "" "") =
        ⟨.error (.paramError "timeout must be between 1 and 300 seconds"),
         false, false⟩ :=
  ⟨by decide,
   (timeout_gate_iff (.int 400) "Get-Service" (.exited 0 "" "")).2 (by decide)⟩

/-- C3: when the process is still running at the deadline, the run fails with
the timeout error, the process is killed (`killed = true`), and the result is
independent of whatever partial output the process had produced — the caller
receives no stdout at all. -/
theorem timeout_kills_discards (code : String) (n : Int) (p q : String)
    (h1 : 1 ≤ n) (h2 : n ≤ 300) (hv : validate_powershell_code code = true) :
    execute_powershell code (.int n) (.timedOut p) =
      ⟨.error (.timeoutError ("Command timed out after " ++ toString n ++ " seconds")),
       true, true⟩ ∧
    execute_powershell code (.int n) (.timedOut p) =
      execute_powershell code (.int n) (.timedOut q) := by
  have ht : ¬ (timeoutRejected (.int n) = true) := by
    simp only [timeoutRejected, Bool.or_eq_true, decide_eq_true_eq]
    omega
  unfold execute_powershell
  rw [if_neg ht, if_pos hv]
  exact ⟨rfl, rfl⟩

/-- Witness for C3: a timed-out run returns the timeout error and no output,
even though the process had produced partial output. -/
theorem timeout_kills_discards_witness :
    (1 : Int) ≤ 60 ∧ (60 : Int) ≤ 300 ∧
      validate_powershell_code "Get-Date" = true ∧
      execute_powershell "Get-Date" (.int 60) (.timedOut "partial output") =
        ⟨.error (.timeoutError "Command timed out after 60 seconds"), true, true⟩ := by
  have h := timeout_kills_discards "Get-Date" 60 "partial output" ""
    (by decide) (by decide) (by decide)
  exact ⟨by decide, by decide, by decide, h.1⟩

/-- C4: a process run that exits non-zero before the deadline fails with the
process error carrying the captured stderr, or the fixed sentinel when stderr
is empty; that error class is distinct from the timeout and spawn failures. -/
theorem nonzero_exit_process_error (code : String) (n ec : Int) (out err : String)
    (h1 : 1 ≤ n) (h2 : n ≤ 300) (hv : validate_powershell_code code = true)
    (hec : ec ≠ 0) :
    execute_powershell code (.int n) (.exited ec out err) =
      ⟨.error (.processError
         (if err = "" then "Command failed with no error output" else err)),
       true, false⟩ ∧
    (∀ m, ExecError.processError
        (if err = "" then "Command failed with no error output" else err) ≠
      ExecError.timeoutError m) ∧
    (∀ m, ExecError.processError
        (if err = "" then "Command failed with no error output" else err) ≠
      ExecError.spawnError m) := by
  have ht : ¬ (timeoutRejected (.int n) = true) := by
    simp only [timeoutRejected, Bool.or_eq_true, decide_eq_true_eq]
    omega
  refine ⟨?_, fun m h => ExecError.noConfusion h, fun m h => ExecError.noConfusion h⟩
  unfold execute_powershell
  rw [if_neg ht, if_pos hv]
  simp [hec]

/-- Witness for C4: exit code 1 with non-empty stderr surfaces that stderr. -/
theorem nonzero_exit_process_error_witness :
    (1 : Int) ≤ 60 ∧ (60 : Int) ≤ 300 ∧
      validate_powershell_code "Get-Item nope" = true ∧ (1 : Int) ≠ 0 ∧
      execute_powershell "Get-Item nope" (.int 60) (.exited 1 "" "oops") =
        ⟨.error (.processError "oops"), true, false⟩ := by
  have h := nonzero_exit_process_error "Get-Item nope" 60 1 "" "oops"
    (by decide) (by decide) (by decide) (by decide)
  exact ⟨by decide, by decide, by decide, by decide, h.1⟩

/-- Counterexample for C5: two commands matching different deny patterns
(`Stop-Computer`, a power-state change, versus `format c:`, drive formatting)
produce identical validation outcomes, and the fixed error message contains
neither matched pattern — the rejection does not identify which pattern
matched.  The source's `validate_powershell_code` returns a bare boolean
(there is no `matchedPattern` field anywhere). -/
theorem validation_outcome_pattern_blind :
    (execute_powershell "Stop-Computer" (.int 60) (.exited 0 "" "")).outcome =
      .error (.validationError "PowerShell code contains potentially dangerous commands") ∧
    (execute_powershell "format c:" (.int 60) (.exited 0 "" "")).outcome =
      (execute_powershell "Stop-Computer" (.int 60) (.exited 0 "" "")).outcome ∧
    containsSub ("Stop-Computer" : String).data
      ("PowerShell code contains potentially dangerous commands" : String).data = false ∧
    containsSub ("format" : String).data
      ("PowerShell code contains potentially dangerous commands" : String).data = false :=
  ⟨rfl, rfl, by decide, by decide⟩

/-- C5 (amended): every deny-list rejection surfaces one fixed validation
error message, identical for all rejected commands; which pattern matched is
not reported. -/
theorem validation_error_fixed_message (code code' : String) (t : TimeoutArg)
    (pb pb' : ProcBehavior) (h : dangerousMatch code = true)
    (h' : dangerousMatch code' = true) (ht : timeoutRejected t = false) :
    (execute_powershell code t pb).outcome =
      .error (.validationError "PowerShell code contains potentially dangerous commands") ∧
    (execute_powershell code t pb).outcome =
      (execute_powershell code' t pb').outcome := by
  have hv : validate_powershell_code code = false := by
    unfold validate_powershell_code; rw [h]; rfl
  have hv' : validate_powershell_code code' = false := by
    unfold validate_powershell_code; rw [h']; rfl
  have hnt : ¬ (timeoutRejected t = true) := by
    rw [ht]; exact Bool.false_ne_true
  have hvn : ¬ (validate_powershell_code code = true) := by
    rw [hv]; exact Bool.false_ne_true
  have hvn' : ¬ (validate_powershell_code code' = true) := by
    rw [hv']; exact Bool.false_ne_true
  unfold execute_powershell
  rw [if_neg hnt, if_neg hvn]
  rw [if_neg hnt, if_neg hvn']
  exact ⟨rfl, rfl⟩

/-- Witness for C5 (amended) at two further deny-listed commands. -/
theorem validation_error_fixed_message_witness :
    dangerousMatch "iex payload" = true ∧ dangerousMatch "net user admin" = true ∧
      timeoutRejected (.int 5) = false ∧
      (execute_powershell "iex payload" (.int 5) (.exited 0 "" "")).outcome =
        .error (.validationError "PowerShell code contains potentially dangerous commands") := by
  have h := validation_error_fixed_message "iex payload" "net user admin" (.int 5)
    (.exited 0 "" "") (.exited 0 "" "") (by decide) (by decide) (by decide)
  exact ⟨by decide, by decide, by decide, h.1⟩

theorem gen_eq_match (catalog : List (String × String)) (fs : FS) (tname : String)
    (params : List (String × String)) (outputPath : Option String) (today : String) :
    generate_script_from_template catalog fs tname params outputPath today =
      (match List.lookup tname catalog with
       | none => ⟨.error (.notFound tname), params, fs⟩
       | some tmpl =>
         match outputPath with
         | none =>
             ⟨.ok (renderContent tmpl (substParams params today)),
              substParams params today, fs⟩
         | some path =>
           match writeFileFS fs path (renderContent tmpl (substParams params today)) with
           | none => ⟨.error (.ioError path), substParams params today, fs⟩
           | some fs2 =>
               ⟨.ok ("Script generated and saved to: " ++ path),
                substParams params today, fs2⟩) := rfl

/-- C6: the substitution set used by `generate_script_from_template` always
maps `DATE` to the auto-generated date, and that value overwrites any
caller-supplied `DATE`: the returned value and the file-system effects are
identical whatever `DATE` value the caller put into the mapping, so a
caller-supplied `DATE` never reaches the rendered content. -/
theorem auto_date_overwrites (params : List (String × String)) (today : String) :
    List.lookup "DATE" (substParams params today) = some today ∧
      ∀ (catalog : List (String × String)) (fs : FS) (name : String)
        (path : Option String) (v : String),
        (generate_script_from_template catalog fs name (setKey params "DATE" v)
            path today).result =
          (generate_script_from_template catalog fs name params path today).result ∧
        (generate_script_from_template catalog fs name (setKey params "DATE" v)
            path today).fs =
          (generate_script_from_template catalog fs name params path today).fs := by
  refine ⟨lookup_setKey_self _ _ _, ?_⟩
  intro catalog fs name path v
  have hsub : setKey (setKey params "DATE" v) "DATE" today =
      setKey params "DATE" today := setKey_setKey params "DATE" v today
  cases hl : List.lookup name catalog with
  | none =>
    constructor
    · simp only [gen_eq_match, hl]
    · simp only [gen_eq_match, hl]
  | some tmpl =>
    constructor
    · simp only [gen_eq_match, hl, substParams, hsub]
    · simp only [gen_eq_match, hl, substParams, hsub]

/-- C7: substitution replaces every (non-overlapping, left-to-right)
occurrence of a key's marker with the value: `strReplace` equals splitting the
template at the marker and joining the pieces with the value; and the concrete
template with two `A`-markers renders with both occurrences replaced. -/
theorem render_replaces_every_occurrence :
    (∀ (tmpl k v : String),
      (strReplace tmpl (marker k) v).data =
        joinWith v.data (splitOnL (marker k).data tmpl.data)) ∧
    (generate_script_from_template
        [("t", "say \x7b\x7bA\x7d\x7d and \x7b\x7bA\x7d\x7d end")]
        ⟨[], [], []⟩ "t" [("A", "x")] none "2025-01-01").result =
      .ok "say x and x end" := by
  constructor
  · intro tmpl k v
    exact replaceAllL_eq_joinWith (marker k).data v.data tmpl.data
  · rfl

/-- Counterexample for C10: a call with an unknown template name raises before
the `DATE` assignment, so the caller's mapping is left untouched — after the
call it still has no `DATE` entry, contradicting the claim's "for every call". -/
theorem missing_template_leaves_params :
    (generate_script_from_template [] ⟨[], [], []⟩ "missing" [("A", "x")]
        none "2025-01-01").paramsAfter = [("A", "x")] ∧
    List.lookup "DATE"
        (generate_script_from_template [] ⟨[], [], []⟩ "missing" [("A", "x")]
          none "2025-01-01").paramsAfter = none :=
  ⟨rfl, rfl⟩

/-- C10 (amended): whenever the template exists, the call mutates the caller's
mapping in place before substitution — afterwards it equals the original
mapping with the auto-date stored under `DATE` (overwritten in place or
appended), every other key unchanged; when the template is unknown the
mapping is left untouched. -/
theorem params_mutated_in_place (catalog : List (String × String)) (fs : FS)
    (name : String) (params : List (String × String)) (path : Option String)
    (today : String) :
    ((∃ tmpl, List.lookup name catalog = some tmpl) →
      (generate_script_from_template catalog fs name params path today).paramsAfter =
          setKey params "DATE" today ∧
        List.lookup "DATE"
            (generate_script_from_template catalog fs name params path today).paramsAfter =
          some today ∧
        ∀ k, k ≠ "DATE" →
          List.lookup k
              (generate_script_from_template catalog fs name params path today).paramsAfter =
            List.lookup k params) ∧
    (List.lookup name catalog = none →
      (generate_script_from_template catalog fs name params path today).paramsAfter =
        params) := by
  constructor
  · rintro ⟨tmpl, hl⟩
    have hpa : (generate_script_from_template catalog fs name params path today).paramsAfter =
        setKey params "DATE" today := by
      rw [gen_eq_match, hl]
      cases path with
      | none => rfl
      | some p =>
        dsimp only
        cases writeFileFS fs p (renderContent tmpl (substParams params today)) with
        | none => rfl
        | some fs2 => rfl
    refine ⟨hpa, ?_, ?_⟩
    · rw [hpa]; exact lookup_setKey_self _ _ _
    · intro k hk; rw [hpa]; exact lookup_setKey_ne _ _ _ _ hk
  · intro hl
    simp only [gen_eq_match, hl]

/-- Witness for C10 (amended) at a concrete existing template. -/
theorem params_mutated_in_place_witness :
    (∃ tmpl, List.lookup "t" [("t", "hello")] = some tmpl) ∧
      (generate_script_from_template [("t", "hello")] ⟨[], [], []⟩ "t"
          [("A", "x")] none "2025-01-01").paramsAfter =
        setKey [("A", "x")] "DATE" "2025-01-01" := by
  have h := (params_mutated_in_place [("t", "hello")] ⟨[], [], []⟩ "t"
    [("A", "x")] none "2025-01-01").1 ⟨"hello", rfl⟩
  exact ⟨⟨"hello", rfl⟩, h.1⟩

/-- Counterexample for C8: called directly with a destination path whose
containing directory does not exist, `generate_script_from_template` fails
with an I/O error and creates no directory (the claim says the directory is
created recursively); and on success the returned value is the message
naming the path, not the bare destination path. -/
theorem render_no_directory_creation :
    (generate_script_from_template [("t", "hi")] ⟨[], [], []⟩ "t" []
        (some "/outdir/f.ps1") "2025-01-01").result =
      .error (.ioError "/outdir/f.ps1") ∧
    (generate_script_from_template [("t", "hi")] ⟨[], [], []⟩ "t" []
        (some "/outdir/f.ps1") "2025-01-01").fs = ⟨[], [], []⟩ ∧
    (generate_script_from_template [("t", "hi")] ⟨["/d"], [], []⟩ "t" []
        (some "/d/f.ps1") "2025-01-01").result ≠ .ok "/d/f.ps1" := by
  refine ⟨rfl, rfl, ?_⟩
  intro h
  have hr : (generate_script_from_template [("t", "hi")] ⟨["/d"], [], []⟩ "t" []
      (some "/d/f.ps1") "2025-01-01").result =
      .ok "Script generated and saved to: /d/f.ps1" := rfl
  rw [hr] at h
  injection h with h2
  exact absurd h2 (by decide)

/-- C8 (amended): with a destination path supplied, and the template known,
`generate_script_from_template` returns the message naming the destination
path (instead of the content) and writes the rendered content there — but
only when the containing directory already exists; when it is missing, the
call fails with an I/O error and leaves the file system unchanged.  In either
case the call itself creates no directory (only the Intune wrappers do, via
`ensure_directory`). -/
theorem render_to_path (catalog : List (String × String)) (fs : FS)
    (name : String) (params : List (String × String)) (path today tmpl : String)
    (hl : List.lookup name catalog = some tmpl) :
    ((dirname path = "/" ∨ dirname path ∈ fs.dirs) →
      generate_script_from_template catalog fs name params (some path) today =
        ⟨.ok ("Script generated and saved to: " ++ path), substParams params today,
         ⟨fs.dirs,
          setKey fs.files path (renderContent tmpl (substParams params today)),
          fs.writes ++ [(path, renderContent tmpl (substParams params today))]⟩⟩) ∧
    (¬ (dirname path = "/" ∨ dirname path ∈ fs.dirs) →
      generate_script_from_template catalog fs name params (some path) today =
        ⟨.error (.ioError path), substParams params today, fs⟩) ∧
    (generate_script_from_template catalog fs name params (some path) today).fs.dirs =
      fs.dirs := by
  refine ⟨fun hdir => gen_write_ok catalog fs name params path today tmpl hl hdir,
    fun hdir => gen_write_fail catalog fs name params path today tmpl hl hdir, ?_⟩
  by_cases hdir : dirname path = "/" ∨ dirname path ∈ fs.dirs
  · rw [gen_write_ok catalog fs name params path today tmpl hl hdir]
  · rw [gen_write_fail catalog fs name params path today tmpl hl hdir]

/-- Witness for C8 (amended): with the directory present the file is written
and the message names the destination. -/
theorem render_to_path_witness :
    List.lookup "t" [("t", "hi")] = some "hi" ∧
      (dirname "/d/f.ps1" = "/" ∨ dirname "/d/f.ps1" ∈ (["/d"] : List String)) ∧
      generate_script_from_template [("t", "hi")] ⟨["/d"], [], []⟩ "t" []
          (some "/d/f.ps1") "2025-01-01" =
        ⟨.ok "Script generated and saved to: /d/f.ps1", [("DATE", "2025-01-01")],
         ⟨["/d"], [("/d/f.ps1", "hi")], [("/d/f.ps1", "hi")]⟩⟩ := by
  have h := (render_to_path [("t", "hi")] ⟨["/d"], [], []⟩ "t" [] "/d/f.ps1"
    "2025-01-01" "hi" rfl).1 (by decide)
  exact ⟨rfl, by decide, h⟩

/-- Counterexample for C9: the paired generation does not return the two
absolute paths — it returns, for each script, the message naming that path. -/
theorem pair_returns_messages :
    (generate_intune_script_pair
        [("intune_detection", "D"), ("intune_remediation", "R")] "/cwd"
        ⟨[], [], []⟩ "desc" "dl" "rl" (some "scripts") "2025-01-01").result =
      .ok ("Script generated and saved to: /cwd/scripts/detect.ps1",
           "Script generated and saved to: /cwd/scripts/remedy.ps1") ∧
    (generate_intune_script_pair
        [("intune_detection", "D"), ("intune_remediation", "R")] "/cwd"
        ⟨[], [], []⟩ "desc" "dl" "rl" (some "scripts") "2025-01-01").result ≠
      .ok ("/cwd/scripts/detect.ps1", "/cwd/scripts/remedy.ps1") := by
  refine ⟨rfl, ?_⟩
  intro h
  have hr : (generate_intune_script_pair
      [("intune_detection", "D"), ("intune_remediation", "R")] "/cwd"
      ⟨[], [], []⟩ "desc" "dl" "rl" (some "scripts") "2025-01-01").result =
      .ok ("Script generated and saved to: /cwd/scripts/detect.ps1",
           "Script generated and saved to: /cwd/scripts/remedy.ps1") := rfl
  rw [hr] at h
  injection h with h2
  have h3 := congrArg Prod.fst h2
  exact absurd h3 (by decide)

/-- C9 (amended): with an output directory supplied (and both Intune templates
in the catalog), the paired generation performs exactly two file writes, at
the two fixed names `detect.ps1` and `remedy.ps1` inside the resolved
absolute directory, each file holding its own rendered content, and returns
for each script a message naming its absolute path rather than its text. -/
theorem pair_writes_two_files (catalog : List (String × String)) (cwd : String)
    (fs : FS) (desc dl rl d today tmplD tmplR : String)
    (hcwd : isabs cwd = true) (hd : d ≠ "")
    (hD : List.lookup "intune_detection" catalog = some tmplD)
    (hR : List.lookup "intune_remediation" catalog = some tmplR)
    (hsl : endsSlash (normalize_path cwd d) = false) :
    (generate_intune_script_pair catalog cwd fs desc dl rl (some d) today).result =
      .ok ("Script generated and saved to: " ++
             (normalize_path cwd d ++ "/" ++ "detect.ps1"),
           "Script generated and saved to: " ++
             (normalize_path cwd d ++ "/" ++ "remedy.ps1")) ∧
    (generate_intune_script_pair catalog cwd fs desc dl rl (some d) today).fs.writes =
      fs.writes ++
        [(normalize_path cwd d ++ "/" ++ "detect.ps1",
          renderContent tmplD (substParams (detectionParams desc dl today) today)),
         (normalize_path cwd d ++ "/" ++ "remedy.ps1",
          renderContent tmplR (substParams (remediationParams desc rl today) today))] ∧
    List.lookup (normalize_path cwd d ++ "/" ++ "detect.ps1")
        (generate_intune_script_pair catalog cwd fs desc dl rl (some d) today).fs.files =
      some (renderContent tmplD (substParams (detectionParams desc dl today) today)) ∧
    List.lookup (normalize_path cwd d ++ "/" ++ "remedy.ps1")
        (generate_intune_script_pair catalog cwd fs desc dl rl (some d) today).fs.files =
      some (renderContent tmplR (substParams (remediationParams desc rl today) today)) := by
  have hA : isabs (normalize_path cwd d) = true := isabs_normalize_path d hcwd
  have hAne : normalize_path cwd d ≠ "" := ne_empty_of_isabs hA
  have hjd : joinPath (normalize_path cwd d) "detect.ps1" =
      normalize_path cwd d ++ "/" ++ "detect.ps1" :=
    joinPath_no_slash _ _ hAne hsl (by decide)
  have hjr : joinPath (normalize_path cwd d) "remedy.ps1" =
      normalize_path cwd d ++ "/" ++ "remedy.ps1" :=
    joinPath_no_slash _ _ hAne hsl (by decide)
  have hne : normalize_path cwd d ++ "/" ++ "detect.ps1" ≠
      normalize_path cwd d ++ "/" ++ "remedy.ps1" :=
    append_file_ne _ _ _ (by decide)
  have hens := ensure_dir_eval cwd fs d hd
  rw [pair_ok_branch catalog cwd fs desc dl rl d today (normalize_path cwd d)
    (makedirsFS fs
      (if hasExt (normalize_path cwd d) then dirname (normalize_path cwd d)
       else normalize_path cwd d)) hens]
  simp only [hjd, hjr]
  rw [intune_detect_ok catalog cwd _ desc dl today _ tmplD hD hA]
  dsimp only
  rw [intune_remedy_ok catalog cwd _ desc rl today _ tmplR hR hA]
  dsimp only [makedirsFS]
  refine ⟨rfl, by simp, ?_, ?_⟩
  · rw [lookup_setKey_ne _ _ _ _ hne, lookup_setKey_self]
  · rw [lookup_setKey_self]

/-- Witness for C9 (amended) at a concrete directory and catalog. -/
theorem pair_writes_two_files_witness :
    isabs "/cwd" = true ∧ ("scripts" : String) ≠ "" ∧
      endsSlash (normalize_path "/cwd" "scripts") = false ∧
      (generate_intune_script_pair
          [("intune_detection", "D"), ("intune_remediation", "R")] "/cwd"
          ⟨[], [], []⟩ "desc" "dl" "rl" (some "scripts") "2025-01-01").fs.writes =
        [("/cwd/scripts/detect.ps1", "D"), ("/cwd/scripts/remedy.ps1", "R")] := by
  have h := pair_writes_two_files
    [("intune_detection", "D"), ("intune_remediation", "R")] "/cwd"
    ⟨[], [], []⟩ "desc" "dl" "rl" "scripts" "2025-01-01" "D" "R"
    (by decide) (by decide) rfl rfl (by decide)
  exact ⟨by decide, by decide, by decide, h.2.1⟩
